import Mathlib

/-!
Verification of the komuzik bot's download-orchestration core against its
specification. The definitions below are a shallow embedding of the Python
sources: `src/komuzik/download_limiter.py` (per-user admission control),
`src/komuzik/downloaders.py` (file resolution, format probing, metadata
extraction, the TikTok and Twitter retry loops) and `src/komuzik/handlers.py`
(message routing, the report-capture flow, and the download-and-send control
flow). Machine strings are modelled as Lean `String`s operated on through
their character lists, so that every definition evaluates on concrete inputs.
-/

namespace Komuzik

/-! ### Python string primitives

Models of the Python `str` operations the sources use: `in` (substring test),
`startswith`, `endswith`, `lower`, `strip`, and `split(sep, 1)`. They work on
`String.data` so they reduce by `rfl`/`decide` on literals. -/

/-- Model of Python list/str prefix test: `startsWithL pat text` is true when
`pat` is a prefix of `text`. -/
def startsWithL : List Char → List Char → Bool
  | [], _ => true
  | _ :: _, [] => false
  | p :: ps, t :: ts => p == t && startsWithL ps ts

/-- Model of Python `pat in text` on character lists: `pat` occurs
contiguously inside `text`. -/
def infixL (pat : List Char) : List Char → Bool
  | [] => startsWithL pat []
  | t :: ts => startsWithL pat (t :: ts) || infixL pat ts

/-- Python `pat in s` for strings. -/
def strContains (s pat : String) : Bool := infixL pat.data s.data

/-- Python `s.startswith(pat)`. -/
def pyStartsWith (s pat : String) : Bool := startsWithL pat.data s.data

/-- Python `s.endswith(pat)`. -/
def pyEndsWith (s pat : String) : Bool :=
  startsWithL pat.data.reverse s.data.reverse

/-- Python `s.lower()` (ASCII case of the sources' error messages). -/
def pyLower (s : String) : String := ⟨s.data.map Char.toLower⟩

/-- The whitespace characters Python `str.strip()` removes (the ones that can
occur in the sources' titles). -/
def isPySpace (c : Char) : Bool := c == ' ' || c == '\t' || c == '\n' || c == '\r'

/-- Python `s.strip()`. -/
def pyStrip (s : String) : String :=
  ⟨((s.data.dropWhile isPySpace).reverse.dropWhile isPySpace).reverse⟩

/-- First-occurrence split on character lists: `some (before, after)` when
`sep` occurs in `text` (split at the leftmost occurrence), `none` otherwise.
Together with the `none` fallthrough this models Python's
`sep in text` test followed by `text.split(sep, 1)`. -/
def splitFirstAux (sep : List Char) : List Char → Option (List Char × List Char)
  | [] => if sep.isEmpty then some ([], []) else none
  | t :: ts =>
    if startsWithL sep (t :: ts) then some ([], (t :: ts).drop sep.length)
    else
      match splitFirstAux sep ts with
      | some (pre, post) => some (t :: pre, post)
      | none => none

/-! ### Admission control — `download_limiter.py`, class `DownloadLimiter`

`_active_downloads: Dict[int, Set[str]]` is modelled as an association list
from user id to the list of active download identifiers (Python `set.add`
becomes a duplicate-free append, `set.discard` a filter). The configuration
values `MAX_DOWNLOADS_PER_USER` and `UNLIMITED_USER_IDS` are the fields read
from the YAML config in `__init__` (lines 23-24). -/

/-- Model of `self._active_downloads.get(user_id, set())` as a list lookup. -/
def lookupActive : List (Int × List String) → Int → List String
  | [], _ => []
  | (k, v) :: rest, u => if k = u then v else lookupActive rest u

/-- Model of `self._active_downloads[user_id] = s` (overwrite or insert). -/
def updateEntry : List (Int × List String) → Int → List String → List (Int × List String)
  | [], u, s => [(u, s)]
  | (k, v) :: rest, u, s => if k = u then (u, s) :: rest else (k, v) :: updateEntry rest u s

/-- Model of `del self._active_downloads[user_id]`. -/
def removeEntry : List (Int × List String) → Int → List (Int × List String)
  | [], _ => []
  | (k, v) :: rest, u => if k = u then rest else (k, v) :: removeEntry rest u

/-- Model of `user_id in self._active_downloads`. -/
def hasEntry : List (Int × List String) → Int → Bool
  | [], _ => false
  | (k, _) :: rest, u => if k = u then true else hasEntry rest u

/-- Python `set.add`: insert unless already present. -/
def setAdd (s : List String) (d : String) : List String :=
  if d ∈ s then s else s ++ [d]

/-- State of a `DownloadLimiter` instance: the two configuration values read
in `__init__` (download_limiter.py lines 23-24) and the `_active_downloads`
table (line 30). -/
structure DownloadLimiter where
  MAX_DOWNLOADS_PER_USER : Nat
  UNLIMITED_USER_IDS : List Int
  active_downloads : List (Int × List String)

namespace DownloadLimiter

/-- Method `DownloadLimiter.can_download` (lines 77-97): unlimited users always may;
otherwise the active count must be below `MAX_DOWNLOADS_PER_USER`. -/
def can_download (l : DownloadLimiter) (user_id : Int) : Bool :=
  if user_id ∈ l.UNLIMITED_USER_IDS then true
  else (lookupActive l.active_downloads user_id).length < l.MAX_DOWNLOADS_PER_USER

/-- Method `DownloadLimiter.start_download` (lines 99-118): returns `False` without
side effect when `can_download` fails, else registers the id and returns
`True`. -/
def start_download (l : DownloadLimiter) (user_id : Int) (download_id : String) :
    Bool × DownloadLimiter :=
  if l.can_download user_id then
    (true,
      { l with
        active_downloads :=
          updateEntry l.active_downloads user_id
            (setAdd (lookupActive l.active_downloads user_id) download_id) })
  else (false, l)

/-- Method `DownloadLimiter.finish_download` (lines 120-134): discard the id and drop
the user's entry when its set becomes empty; a no-op when the user has no
entry. -/
def finish_download (l : DownloadLimiter) (user_id : Int) (download_id : String) :
    DownloadLimiter :=
  if hasEntry l.active_downloads user_id then
    if ((lookupActive l.active_downloads user_id).filter (fun d => !(d == download_id))).isEmpty
    then { l with active_downloads := removeEntry l.active_downloads user_id }
    else
      { l with
        active_downloads :=
          updateEntry l.active_downloads user_id
            ((lookupActive l.active_downloads user_id).filter (fun d => !(d == download_id))) }
  else l

/-- Method `DownloadLimiter.get_active_count` (lines 136-145). -/
def get_active_count (l : DownloadLimiter) (user_id : Int) : Nat :=
  (lookupActive l.active_downloads user_id).length

/-- Method `DownloadLimiter.is_unlimited_user` (lines 147-156). -/
def is_unlimited_user (l : DownloadLimiter) (user_id : Int) : Bool :=
  user_id ∈ l.UNLIMITED_USER_IDS

end DownloadLimiter

/-- One observable call on the limiter, as the handlers issue them. -/
inductive LimiterOp where
  | start (user_id : Int) (download_id : String)
  | finish (user_id : Int) (download_id : String)

/-- Apply one call (a `start` whose boolean answer is discarded, or a
`finish`). -/
def applyLimiterOp (l : DownloadLimiter) : LimiterOp → DownloadLimiter
  | .start u d => (l.start_download u d).2
  | .finish u d => l.finish_download u d

/-- Run a sequence of limiter calls from a given state. -/
def runLimiterOps (l : DownloadLimiter) : List LimiterOp → DownloadLimiter
  | [] => l
  | op :: rest => runLimiterOps (applyLimiterOp l op) rest

/-- A freshly constructed limiter: configuration as loaded, empty
`_active_downloads` table. -/
def initLimiter (maxPerUser : Nat) (unlimited : List Int) : DownloadLimiter :=
  ⟨maxPerUser, unlimited, []⟩

/-! ### File resolution — `downloaders.py`, `_find_downloaded_file`

A workspace directory listing is a list of `(file name, size in bytes)` pairs
in `os.listdir` order. -/

/-- The thumbnail filter of line 56: `f.endswith(('.jpg', '.png', '.webp'))`. -/
def isImageSidecar (name : String) : Bool :=
  pyEndsWith name ".jpg" || pyEndsWith name ".png" || pyEndsWith name ".webp"

/-- The thumbnail-filter phase of `_find_downloaded_file` (downloaders.py
lines 52-56): drop image files unless `allow_images`. -/
def mediaFilterImages (files : List (String × Nat)) (allow_images : Bool) :
    List (String × Nat) :=
  if allow_images then files else files.filter (fun f => !(isImageSidecar f.1))

/-- The extension-preference phase of `_find_downloaded_file` (downloaders.py
lines 58-62): when an expected extension is given and some candidate carries
it, keep exactly those candidates. -/
def mediaPreferExt (media : List (String × Nat)) (expected_extension : Option String) :
    List (String × Nat) :=
  match expected_extension with
  | some ext =>
    if (media.filter (fun f => pyEndsWith f.1 ("." ++ ext))).isEmpty then media
    else media.filter (fun f => pyEndsWith f.1 ("." ++ ext))
  | none => media

/-- The candidate-filtering pipeline of `_find_downloaded_file` (downloaders.py
lines 52-62): the thumbnail filter followed by the extension preference. -/
def mediaCandidates (files : List (String × Nat)) (expected_extension : Option String)
    (allow_images : Bool) : List (String × Nat) :=
  mediaPreferExt (mediaFilterImages files allow_images) expected_extension

/-- Function `_find_downloaded_file` (downloaders.py lines 34-73) over a directory
listing of `(name, size)` pairs: error on an empty listing; filter the
candidates per `mediaCandidates`; error when nothing remains; take the first
remaining entry (`media_files[0]`, line 67) and error when its size is zero,
else return its joined path. -/
def _find_downloaded_file (temp_dir : String) (files : List (String × Nat))
    (expected_extension : Option String) (allow_images : Bool) : Except String String :=
  if files.isEmpty then .error "No files downloaded"
  else
    match mediaCandidates files expected_extension allow_images with
    | [] => .error "No media file found in download directory"
    | f :: _ =>
      if f.2 = 0 then .error "The downloaded file is empty"
      else .ok (temp_dir ++ "/" ++ f.1)

/-! ### Available-formats probe — `downloaders.py`, `get_available_formats` -/

/-- One entry of the extractor's `formats` list: the `height` field (`none`
when the key is absent) and the `vcodec` field (`none` when absent; the code
reads it with default `'none'`). -/
structure YdlFormat where
  height : Option Nat
  vcodec : Option String

/-- The filter of lines 95-99: keep `height` when it is truthy and the
`vcodec` read with default `'none'` is truthy and differs from `'none'`. -/
def eligibleHeight (f : YdlFormat) : Option Nat :=
  match f.height with
  | none => none
  | some h =>
    let v := f.vcodec.getD "none"
    if h ≠ 0 ∧ v ≠ "" ∧ v ≠ "none" then some h else none

/-- Constant `VIDEO_FALLBACK_QUALITIES` (config.py line 69 default). -/
def VIDEO_FALLBACK_QUALITIES : List Nat := [1080, 720, 480, 360, 240]

/-- Insert into a strictly descending list, skipping duplicates: the building
block of Python's `sorted(set, reverse=True)`. -/
def insertDesc (n : Nat) : List Nat → List Nat
  | [] => [n]
  | m :: ms => if n > m then n :: m :: ms else if n = m then m :: ms else m :: insertDesc n ms

/-- Python `sorted(set(l), reverse=True)`: distinct elements, strictly descending. -/
def sortDescDedup (l : List Nat) : List Nat := l.foldr insertDesc []

/-- Boolean strict-descent check for result lists. -/
def strictDescB : List Nat → Bool
  | [] => true
  | [_] => true
  | a :: b :: rest => decide (b < a) && strictDescB (b :: rest)

/-- The outcome of the metadata probe wrapped by `get_available_formats`:
either the extractor's `formats` list, or any raised exception. -/
def get_available_formats (probe : Except Unit (List YdlFormat)) : List Nat :=
  match probe with
  | .error _ => VIDEO_FALLBACK_QUALITIES
  | .ok formats =>
    let hs := formats.filterMap eligibleHeight
    if hs.isEmpty then VIDEO_FALLBACK_QUALITIES
    else sortDescDedup hs

/-! ### Audio metadata — `downloaders.py`, `_extract_metadata` -/

/-- The metadata fields `_extract_metadata` reads from the extractor's info
dict; `none` models an absent key. -/
structure TrackInfo where
  artist : Option String
  creator : Option String
  uploader : Option String
  track : Option String

/-- Python `a or b` where `a` is an optional string: `b` when `a` is absent
or empty, else `a`'s value. -/
def orStr (a : Option String) (b : String) : String :=
  match a with
  | some s => if s = "" then b else s
  | none => b

/-- Function `_extract_metadata` (downloaders.py lines 143-154): artist is
`info.get('artist') or info.get('creator') or info.get('uploader', 'Unknown Artist')`,
track is `info.get('track') or title`; when the artist so computed is the
literal `'Unknown Artist'` and the title contains `' - '`, the title is split
at its first `' - '` and both parts are stripped. -/
def _extract_metadata (info : TrackInfo) (title : String) : String × String :=
  let artist := orStr info.artist (orStr info.creator (info.uploader.getD "Unknown Artist"))
  let track := orStr info.track title
  if artist = "Unknown Artist" then
    match splitFirstAux " - ".data title.data with
    | some (pre, post) => (pyStrip ⟨pre⟩, pyStrip ⟨post⟩)
    | none => (artist, track)
  else (artist, track)

/-! ### Retry loops — `downloaders.py`, `download_tiktok_video` and
`download_twitter_video`

One yt-dlp extraction+download attempt is an oracle from the 0-indexed
attempt number to its outcome: a successful download of some file, a
`yt_dlp.utils.DownloadError` with a message, or any other exception. -/

/-- The outcome of the `attempt`-th yt-dlp call in the retry loop. -/
inductive YdlAttempt where
  | success (file_path : String)
  | downloadError (msg : String)
  | otherError (msg : String)

/-- The TikTok transience test of line 309:
`'Unable to extract' in error_msg or 'webpage' in error_msg`. -/
def tiktokTransientSig (msg : String) : Bool :=
  strContains msg "Unable to extract" || strContains msg "webpage"

/-- How `download_tiktok_video` terminates. -/
inductive TiktokOutcome where
  | fileResult (file_path : String)
  | templateError
  | rawError (msg : String)
  | reraised (msg : String)
  | noReturn
deriving DecidableEq

/-- One whole run of `download_tiktok_video`: its termination, the backoff
sleeps performed in order, and how many yt-dlp attempts were made. -/
structure TiktokRun where
  outcome : TiktokOutcome
  sleeps : List Nat
  attempts : Nat
deriving DecidableEq

/-- The body of `for attempt in range(max_retries)` in `download_tiktok_video`
(downloaders.py lines 281-339), over the list of remaining attempt indices:
success returns the file; a `DownloadError` with a transient signature sleeps
`backoff ^ attempt` and retries while attempts remain, else raises the
configured `TIKTOK_ERROR_MESSAGE` template; a non-transient `DownloadError`
raises `'TikTok download error: ' + msg` immediately; any other exception is
re-raised only on the last attempt. -/
def tiktokGo (script : Nat → YdlAttempt) (max_retries backoff : Nat) :
    List Nat → List Nat → Nat → TiktokRun
  | [], sleeps, attempts => ⟨.noReturn, sleeps, attempts⟩
  | a :: rest, sleeps, attempts =>
    match script a with
    | .success fp => ⟨.fileResult fp, sleeps, attempts + 1⟩
    | .downloadError msg =>
      if tiktokTransientSig msg then
        if a < max_retries - 1 then
          tiktokGo script max_retries backoff rest (sleeps ++ [backoff ^ a]) (attempts + 1)
        else ⟨.templateError, sleeps, attempts + 1⟩
      else ⟨.rawError ("TikTok download error: " ++ msg), sleeps, attempts + 1⟩
    | .otherError msg =>
      if a = max_retries - 1 then ⟨.reraised msg, sleeps, attempts + 1⟩
      else tiktokGo script max_retries backoff rest sleeps (attempts + 1)

/-- Run of `download_tiktok_video`'s retry loop from attempt 0. -/
def download_tiktok_run (script : Nat → YdlAttempt) (max_retries backoff : Nat) : TiktokRun :=
  tiktokGo script max_retries backoff (List.range max_retries) [] 0

/-- The Twitter photo-fallback trigger of line 499: `'Unsupported URL' in msg
or 'no video' in msg.lower() or 'Unable to extract' in msg`. -/
def twitterPhotoSig (msg : String) : Bool :=
  strContains msg "Unsupported URL" || strContains (pyLower msg) "no video" ||
    strContains msg "Unable to extract"

/-- How `download_twitter_video` terminates. -/
inductive TwitterOutcome where
  | videoResult (file_path : String)
  | photoResult
  | templateError
  | reraised (msg : String)
  | noReturn
deriving DecidableEq

/-- One whole run of `download_twitter_video`: its termination, the backoff
sleeps, and how many times the gallery-dl fallback was invoked. -/
structure TwitterRun where
  outcome : TwitterOutcome
  sleeps : List Nat
  galleryCalls : Nat
deriving DecidableEq

/-- The body of `for attempt in range(max_retries)` in `download_twitter_video`
(downloaders.py lines 464-531): on a `DownloadError` whose message matches the
photo signature the gallery-dl fallback is invoked (oracle `galleryOk`,
indexed by how many fallback calls happened before); a successful fallback
returns the photo, a failed one falls through to the shared retry logic
(sleep `backoff ^ attempt` and continue while attempts remain, else raise the
configured `TWITTER_ERROR_MESSAGE` template). Other exceptions re-raise only
on the last attempt. -/
def twitterGo (script : Nat → YdlAttempt) (galleryOk : Nat → Bool)
    (max_retries backoff : Nat) : List Nat → List Nat → Nat → TwitterRun
  | [], sleeps, g => ⟨.noReturn, sleeps, g⟩
  | a :: rest, sleeps, g =>
    match script a with
    | .success fp => ⟨.videoResult fp, sleeps, g⟩
    | .downloadError msg =>
      if twitterPhotoSig msg then
        if galleryOk g then ⟨.photoResult, sleeps, g + 1⟩
        else
          if a < max_retries - 1 then
            twitterGo script galleryOk max_retries backoff rest (sleeps ++ [backoff ^ a]) (g + 1)
          else ⟨.templateError, sleeps, g + 1⟩
      else
        if a < max_retries - 1 then
          twitterGo script galleryOk max_retries backoff rest (sleeps ++ [backoff ^ a]) g
        else ⟨.templateError, sleeps, g⟩
    | .otherError msg =>
      if a = max_retries - 1 then ⟨.reraised msg, sleeps, g⟩
      else twitterGo script galleryOk max_retries backoff rest sleeps g

/-- Run of `download_twitter_video`'s retry loop from attempt 0, no fallback call
made yet. -/
def download_twitter_run (script : Nat → YdlAttempt) (galleryOk : Nat → Bool)
    (max_retries backoff : Nat) : TwitterRun :=
  twitterGo script galleryOk max_retries backoff (List.range max_retries) [] 0

/-! ### Download-and-send control flow — `handlers.py`,
`BotHandlers._download_and_send_content`

The steps of lines 111-137 after admission was granted, as an event trace.
The external outcomes that branch the control flow are whether the download
call returns (`downloadOk`) and whether the send call returns (`sendOk`);
`download_youtube_video` / `download_youtube_audio` remove their own
workspace before re-raising (downloaders.py lines 210-213 and 257-260),
while the handler's only workspace removal is the success-path
`shutil.rmtree(os.path.dirname(file_path))` of lines 127-128. -/

/-- The observable steps of one `_download_and_send_content` run. -/
inductive HandlerEvent where
  | respondProcessing
  | downloadCall
  | sendCall
  | deleteProcessingMsg
  | trackOk
  | trackFail
  | respondError
  | rmtreeWorkspace
  | finishSlot
deriving DecidableEq

/-- The event trace of `_download_and_send_content` (handlers.py lines
111-137) after a granted admission check: the inner `try` downloads, sends,
deletes the progress message, tracks success and removes the workspace; its
`except` tracks the failure and responds with the error; the `finally`
releases the slot. A failing download's workspace removal happens inside the
downloader itself. -/
def _download_and_send_content_events (downloadOk sendOk : Bool) : List HandlerEvent :=
  (if downloadOk then
    [.respondProcessing, .downloadCall] ++
      (if sendOk then [.sendCall, .deleteProcessingMsg, .trackOk, .rmtreeWorkspace]
       else [.sendCall, .trackFail, .respondError])
   else [.respondProcessing, .downloadCall, .rmtreeWorkspace, .trackFail, .respondError])
  ++ [.finishSlot]

/-- The workspace directory no longer exists when the operation finishes:
some step removed it. -/
def workspaceRemoved (events : List HandlerEvent) : Bool :=
  events.contains .rmtreeWorkspace

/-! ### Report capture — `handlers.py`, `BotHandlers.message_handler` lines
210-238, and the attributes of `DownloadLimiter`

The report branch reads `self.download_limiter.ADMIN_USER_IDS`. Python
resolves that attribute against what `DownloadLimiter.__init__`
(download_limiter.py lines 13-35) actually assigned on the instance; the
lookup raises `AttributeError` when the name is not among them. -/

/-- The instance attributes `DownloadLimiter.__init__` assigns
(download_limiter.py lines 19-30); the class defines no others. -/
def downloadLimiterAttrNames : List String :=
  ["config", "download_config", "MAX_DOWNLOADS_PER_USER", "UNLIMITED_USER_IDS",
   "DOWNLOAD_TIMEOUT", "CLEANUP_INTERVAL", "_active_downloads"]

/-- The observable effects of the report branch. -/
inductive ReportEvent where
  | savedReport (user_id : Int) (text : String)
  | forwardedToAdmin (admin_id : Int)
  | confirmedToSender
  | respondedCancelled
deriving DecidableEq

/-- Result of running the report branch on one message: its effects in order,
whether the user's `REPORT_STATES` flag is still set afterwards, and the
exception propagating out of the handler, if any. -/
structure ReportStepResult where
  events : List ReportEvent
  reportActiveAfter : Bool
  raised : Option String
deriving DecidableEq

/-- The report branch of `message_handler` (handlers.py lines 210-238) for a user
whose `REPORT_STATES` flag is set: a command other than `/cancel` is ignored;
`/cancel` clears the flag and confirms cancellation; otherwise the report is
saved via the statistics collaborator, then the loop over
`self.download_limiter.ADMIN_USER_IDS` runs — an attribute lookup that
consults the names `DownloadLimiter.__init__` assigned and raises
`AttributeError` when absent, skipping the forwarding, the confirmation and
the `del REPORT_STATES[user_id]` that follow. -/
def report_branch (user_id : Int) (text : String) (admin_ids : List Int) : ReportStepResult :=
  if pyStartsWith text "/" then
    if pyStrip text = "/cancel" then ⟨[.respondedCancelled], false, none⟩
    else ⟨[], true, none⟩
  else
    if "ADMIN_USER_IDS" ∈ downloadLimiterAttrNames then
      ⟨.savedReport user_id text :: (admin_ids.map .forwardedToAdmin ++ [.confirmedToSender]),
        false, none⟩
    else ⟨[.savedReport user_id text], true, some "AttributeError"⟩

/-! ### Message routing — `handlers.py`, `BotHandlers.message_handler` lines
240-267

The platform regexes are external collaborators; a `re.search` result is an
oracle `Option String` holding `match.group(0)`. The short-form check of line
264 is `'/shorts/' in event.message.text` — on the whole message text, not on
the matched URL. -/

/-- Where `message_handler` routes a non-report text message. -/
inductive Route where
  | ignoredCommand
  | twitter (url : String)
  | tiktok (url : String)
  | invalidLinkReply
  | youtubeShorts (url : String)
  | contentTypeSelection (url : String)
deriving DecidableEq

/-- Routing of `message_handler` (handlers.py lines 240-267) for a user not in
report-capture state: commands are ignored; the Twitter, TikTok and YouTube
matches are tried in that order; on a YouTube match the shorts path is taken
when `'/shorts/'` occurs anywhere in the message text, else the content-type
selection is shown. -/
def message_route (text : String)
    (twitterMatch tiktokMatch youtubeMatch : Option String) : Route :=
  if pyStartsWith text "/" then .ignoredCommand
  else
    match twitterMatch with
    | some u => .twitter u
    | none =>
      match tiktokMatch with
      | some u => .tiktok u
      | none =>
        match youtubeMatch with
        | none => .invalidLinkReply
        | some u =>
          if strContains text "/shorts/" then .youtubeShorts u
          else .contentTypeSelection u

/-- The limiter-state invariant carried through sequences of calls for one
observed user: the table keys are distinct (Python dict keys are), and the
user's active count is within the quota. -/
def LimiterInv (l : DownloadLimiter) (u : Int) : Prop :=
  (l.active_downloads.map Prod.fst).Nodup
    ∧ l.get_active_count u ≤ l.MAX_DOWNLOADS_PER_USER

end Komuzik

namespace Komuzik

/-! ## Helper lemmas about the admission-control table -/

theorem lookupActive_updateEntry_self (m : List (Int × List String)) (u : Int) (s : List String) :
    lookupActive (updateEntry m u s) u = s := by
  induction m with
  | nil => simp [updateEntry, lookupActive]
  | cons p rest ih =>
    obtain ⟨k, v⟩ := p
    by_cases h : k = u
    · simp [updateEntry, h, lookupActive]
    · simp [updateEntry, h, lookupActive, ih]

theorem lookupActive_updateEntry_ne (m : List (Int × List String)) (u v : Int) (s : List String)
    (h : v ≠ u) : lookupActive (updateEntry m u s) v = lookupActive m v := by
  induction m with
  | nil => simp [updateEntry, lookupActive, Ne.symm h]
  | cons p rest ih =>
    obtain ⟨k, w⟩ := p
    by_cases hk : k = u
    · subst hk
      simp [updateEntry, lookupActive, Ne.symm h]
    · simp only [updateEntry, if_neg hk, lookupActive]
      by_cases hv : k = v
      · simp [hv]
      · simp [hv, ih]

theorem removeEntry_sublist (m : List (Int × List String)) (u : Int) :
    List.Sublist (removeEntry m u) m := by
  induction m with
  | nil => simp [removeEntry]
  | cons p rest ih =>
    obtain ⟨k, v⟩ := p
    by_cases h : k = u
    · simp only [removeEntry, if_pos h]
      exact List.sublist_cons_self _ _
    · simp only [removeEntry, if_neg h]
      exact ih.cons₂ _

theorem lookupActive_eq_nil_of_not_mem (m : List (Int × List String)) (u : Int)
    (h : u ∉ m.map Prod.fst) : lookupActive m u = [] := by
  induction m with
  | nil => rfl
  | cons p rest ih =>
    obtain ⟨k, v⟩ := p
    simp only [List.map_cons, List.mem_cons, not_or] at h
    simp only [lookupActive, if_neg (Ne.symm h.1)]
    exact ih h.2

theorem lookupActive_removeEntry_ne (m : List (Int × List String)) (u v : Int) (h : v ≠ u) :
    lookupActive (removeEntry m u) v = lookupActive m v := by
  induction m with
  | nil => rfl
  | cons p rest ih =>
    obtain ⟨k, w⟩ := p
    by_cases hk : k = u
    · simp [removeEntry, hk, lookupActive, Ne.symm h]
    · simp only [removeEntry, if_neg hk, lookupActive]
      by_cases hv : k = v
      · simp [hv]
      · simp [hv, ih]

theorem lookupActive_removeEntry_self (m : List (Int × List String)) (u : Int)
    (h : (m.map Prod.fst).Nodup) : lookupActive (removeEntry m u) u = [] := by
  induction m with
  | nil => rfl
  | cons p rest ih =>
    obtain ⟨k, v⟩ := p
    simp only [List.map_cons, List.nodup_cons] at h
    by_cases hk : k = u
    · subst hk
      simp only [removeEntry, if_pos trivial]
      exact lookupActive_eq_nil_of_not_mem rest k h.1
    · simp only [removeEntry, if_neg hk, lookupActive, if_neg hk]
      exact ih h.2

theorem mem_keys_updateEntry (m : List (Int × List String)) (u : Int) (s : List String) (x : Int) :
    x ∈ (updateEntry m u s).map Prod.fst ↔ x = u ∨ x ∈ m.map Prod.fst := by
  induction m with
  | nil => simp [updateEntry]
  | cons p rest ih =>
    obtain ⟨k, v⟩ := p
    by_cases hk : k = u
    · simp [updateEntry, hk]
    · simp only [updateEntry, if_neg hk, List.map_cons, List.mem_cons, ih]
      tauto

theorem nodup_keys_updateEntry (m : List (Int × List String)) (u : Int) (s : List String)
    (h : (m.map Prod.fst).Nodup) : ((updateEntry m u s).map Prod.fst).Nodup := by
  induction m with
  | nil => simp [updateEntry]
  | cons p rest ih =>
    obtain ⟨k, v⟩ := p
    simp only [List.map_cons, List.nodup_cons] at h
    by_cases hk : k = u
    · subst hk
      simp only [updateEntry, if_pos trivial, List.map_cons, List.nodup_cons]
      exact h
    · simp only [updateEntry, if_neg hk, List.map_cons, List.nodup_cons]
      refine ⟨?_, ih h.2⟩
      rw [mem_keys_updateEntry]
      push_neg
      exact ⟨hk, h.1⟩

theorem nodup_keys_removeEntry (m : List (Int × List String)) (u : Int)
    (h : (m.map Prod.fst).Nodup) : ((removeEntry m u).map Prod.fst).Nodup :=
  List.Nodup.sublist ((removeEntry_sublist m u).map Prod.fst) h

theorem setAdd_length_le (s : List String) (d : String) :
    (setAdd s d).length ≤ s.length + 1 := by
  unfold setAdd
  split
  · omega
  · simp

theorem applyLimiterOp_MAX (l : DownloadLimiter) (op : LimiterOp) :
    (applyLimiterOp l op).MAX_DOWNLOADS_PER_USER = l.MAX_DOWNLOADS_PER_USER := by
  cases op with
  | start u d =>
    simp only [applyLimiterOp, DownloadLimiter.start_download]
    split <;> rfl
  | finish u d =>
    simp only [applyLimiterOp, DownloadLimiter.finish_download]
    split
    · split <;> rfl
    · rfl

theorem applyLimiterOp_UNLIMITED (l : DownloadLimiter) (op : LimiterOp) :
    (applyLimiterOp l op).UNLIMITED_USER_IDS = l.UNLIMITED_USER_IDS := by
  cases op with
  | start u d =>
    simp only [applyLimiterOp, DownloadLimiter.start_download]
    split <;> rfl
  | finish u d =>
    simp only [applyLimiterOp, DownloadLimiter.finish_download]
    split
    · split <;> rfl
    · rfl

theorem limiterInv_applyOp (l : DownloadLimiter) (u : Int) (op : LimiterOp)
    (hu : u ∉ l.UNLIMITED_USER_IDS) (h : LimiterInv l u) :
    LimiterInv (applyLimiterOp l op) u := by
  obtain ⟨hnd, hcnt⟩ := h
  cases op with
  | start v d =>
    simp only [applyLimiterOp, DownloadLimiter.start_download]
    split
    case isTrue hcan =>
      refine ⟨nodup_keys_updateEntry _ _ _ hnd, ?_⟩
      by_cases hv : u = v
      · subst hv
        have hlt : (lookupActive l.active_downloads u).length < l.MAX_DOWNLOADS_PER_USER := by
          simp only [DownloadLimiter.can_download, if_neg hu, decide_eq_true_eq] at hcan
          exact hcan
        simp only [DownloadLimiter.get_active_count, lookupActive_updateEntry_self]
        have := setAdd_length_le (lookupActive l.active_downloads u) d
        omega
      · simp only [DownloadLimiter.get_active_count,
          lookupActive_updateEntry_ne _ _ _ _ hv]
        exact hcnt
    case isFalse => exact ⟨hnd, hcnt⟩
  | finish v d =>
    simp only [applyLimiterOp, DownloadLimiter.finish_download]
    split
    case isTrue =>
      split
      case isTrue =>
        refine ⟨nodup_keys_removeEntry _ _ hnd, ?_⟩
        by_cases hv : u = v
        · subst hv
          simp only [DownloadLimiter.get_active_count,
            lookupActive_removeEntry_self _ _ hnd]
          simp
        · simp only [DownloadLimiter.get_active_count,
            lookupActive_removeEntry_ne _ _ _ hv]
          exact hcnt
      case isFalse =>
        refine ⟨nodup_keys_updateEntry _ _ _ hnd, ?_⟩
        by_cases hv : u = v
        · subst hv
          simp only [DownloadLimiter.get_active_count, lookupActive_updateEntry_self]
          have h1 := List.length_filter_le (fun d' => !(d' == d))
            (lookupActive l.active_downloads u)
          simp only [DownloadLimiter.get_active_count] at hcnt
          omega
        · simp only [DownloadLimiter.get_active_count,
            lookupActive_updateEntry_ne _ _ _ _ hv]
          exact hcnt
    case isFalse => exact ⟨hnd, hcnt⟩

theorem limiterInv_runOps (u : Int) (ops : List LimiterOp) :
    ∀ (l : DownloadLimiter), u ∉ l.UNLIMITED_USER_IDS → LimiterInv l u →
      LimiterInv (runLimiterOps l ops) u := by
  induction ops with
  | nil => intro l _ h; exact h
  | cons op rest ih =>
    intro l hu h
    refine ih (applyLimiterOp l op) ?_ (limiterInv_applyOp l u op hu h)
    rw [applyLimiterOp_UNLIMITED]
    exact hu

theorem runLimiterOps_MAX (ops : List LimiterOp) :
    ∀ (l : DownloadLimiter),
      (runLimiterOps l ops).MAX_DOWNLOADS_PER_USER = l.MAX_DOWNLOADS_PER_USER := by
  induction ops with
  | nil => intro l; rfl
  | cons op rest ih =>
    intro l
    rw [runLimiterOps, ih, applyLimiterOp_MAX]

theorem runLimiterOps_UNLIMITED (ops : List LimiterOp) :
    ∀ (l : DownloadLimiter),
      (runLimiterOps l ops).UNLIMITED_USER_IDS = l.UNLIMITED_USER_IDS := by
  induction ops with
  | nil => intro l; rfl
  | cons op rest ih =>
    intro l
    rw [runLimiterOps, ih, applyLimiterOp_UNLIMITED]

/-- C2: from a freshly constructed limiter, over any sequence of
`start_download`/`finish_download` calls, a user outside the unlimited set
never holds more than `MAX_DOWNLOADS_PER_USER` active slots; at the quota,
`start_download` returns `False` and changes nothing; and for a user in the
unlimited set `start_download` always returns `True`, in any state. -/
theorem limiter_per_user_quota (maxPerUser : Nat) (unlimited : List Int)
    (ops : List LimiterOp) (u : Int) (d : String) (hu : u ∉ unlimited) :
    (runLimiterOps (initLimiter maxPerUser unlimited) ops).get_active_count u ≤ maxPerUser
    ∧ ((runLimiterOps (initLimiter maxPerUser unlimited) ops).get_active_count u = maxPerUser →
        (runLimiterOps (initLimiter maxPerUser unlimited) ops).start_download u d
          = (false, runLimiterOps (initLimiter maxPerUser unlimited) ops))
    ∧ (∀ (l : DownloadLimiter) (v : Int) (dd : String),
        v ∈ l.UNLIMITED_USER_IDS → (l.start_download v dd).1 = true) := by
  have hMax : (runLimiterOps (initLimiter maxPerUser unlimited) ops).MAX_DOWNLOADS_PER_USER
      = maxPerUser := runLimiterOps_MAX ops _
  have hUnl : (runLimiterOps (initLimiter maxPerUser unlimited) ops).UNLIMITED_USER_IDS
      = unlimited := runLimiterOps_UNLIMITED ops _
  have hInv : LimiterInv (runLimiterOps (initLimiter maxPerUser unlimited) ops) u := by
    refine limiterInv_runOps u ops _ hu ?_
    exact ⟨by simp [initLimiter], by simp [initLimiter, DownloadLimiter.get_active_count,
      lookupActive]⟩
  refine ⟨?_, ?_, ?_⟩
  · have h2 := hInv.2
    rw [hMax] at h2
    exact h2
  · intro heq
    have hcd : (runLimiterOps (initLimiter maxPerUser unlimited) ops).can_download u = false := by
      simp only [DownloadLimiter.can_download, hUnl, if_neg hu, decide_eq_false_iff_not,
        not_lt, hMax]
      simp only [DownloadLimiter.get_active_count] at heq
      omega
    simp [DownloadLimiter.start_download, hcd]
  · intro l v dd hv
    simp [DownloadLimiter.start_download, DownloadLimiter.can_download, hv]

/-! ## The TikTok retry loop -/

theorem tiktokGo_transient_spec (script : Nat → YdlAttempt) (m b : Nat) (p : String)
    (hsucc : script (m - 1) = .success p)
    (htrans : ∀ i, i < m - 1 →
      ∃ msg, script i = .downloadError msg ∧ tiktokTransientSig msg = true) :
    ∀ (j k : Nat) (sleeps : List Nat) (cnt : Nat), 1 ≤ j → k + j = m →
      tiktokGo script m b (List.range' k j) sleeps cnt
        = ⟨.fileResult p, sleeps ++ (List.range' k (m - 1 - k)).map (fun a => b ^ a),
            cnt + j⟩ := by
  intro j
  induction j with
  | zero => intro k sleeps cnt h1 _; omega
  | succ j ih =>
    intro k sleeps cnt _ hkm
    by_cases hj : j = 0
    · subst hj
      have hk : k = m - 1 := by omega
      have hz : m - 1 - k = 0 := by omega
      subst hk
      simp [List.range'_one, tiktokGo, hsucc, hz]
    · have hj1 : 1 ≤ j := by omega
      have hklt : k < m - 1 := by omega
      obtain ⟨msg, hscript, htr⟩ := htrans k hklt
      rw [List.range'_succ]
      rw [show tiktokGo script m b (k :: List.range' (k + 1) j) sleeps cnt
          = tiktokGo script m b (List.range' (k + 1) j) (sleeps ++ [b ^ k]) (cnt + 1) by
        simp [tiktokGo, hscript, htr, hklt]]
      rw [ih (k + 1) (sleeps ++ [b ^ k]) (cnt + 1) hj1 (by omega)]
      have hsplit : List.range' k (m - 1 - k) = k :: List.range' (k + 1) (m - 1 - (k + 1)) := by
        rw [show m - 1 - k = (m - 1 - (k + 1)) + 1 by omega, List.range'_succ]
      rw [hsplit]
      simp [List.append_assoc]
      omega

/-- C5: when the operation fails with a transient signature on every attempt
before the last and succeeds on attempt `max_retries - 1`, the TikTok retry
loop returns that success, makes `max_retries` attempts, and performs exactly
`max_retries - 1` backoff sleeps, the k-th (0-indexed) lasting
`backoff ^ k`. -/
theorem tiktok_retry_transient_then_success (script : Nat → YdlAttempt) (m b : Nat) (p : String)
    (hm : 1 ≤ m)
    (htrans : ∀ i, i < m - 1 →
      ∃ msg, script i = .downloadError msg ∧ tiktokTransientSig msg = true)
    (hsucc : script (m - 1) = .success p) :
    download_tiktok_run script m b
      = ⟨.fileResult p, (List.range (m - 1)).map (fun a => b ^ a), m⟩ := by
  unfold download_tiktok_run
  rw [List.range_eq_range']
  rw [tiktokGo_transient_spec script m b p hsucc htrans m 0 [] 0 hm (by omega)]
  simp [List.range_eq_range']

/-- Witness for C5: three attempts, backoff base 2; two transient failures
then a success yield the file after sleeps of 1 and 2 time units. -/
theorem tiktok_retry_transient_then_success_witness :
    download_tiktok_run
        (fun i => if i < 2 then .downloadError "Unable to extract webpage data"
                  else .success "/ws/video.mp4") 3 2
      = ⟨.fileResult "/ws/video.mp4", (List.range 2).map (fun a => 2 ^ a), 3⟩ :=
  tiktok_retry_transient_then_success _ 3 2 _ (by omega)
    (fun i hi => ⟨"Unable to extract webpage data",
      by
        have h2 : i < 2 := by omega
        simp [h2],
      by decide⟩)
    rfl

/-- C4 (amended): on a non-transient failure signature at the first attempt,
the TikTok retry loop makes exactly one attempt, performs no backoff sleep,
and propagates the raw tool error text behind the `TikTok download error: `
marker rather than the configured template. -/
theorem tiktok_nontransient_single_attempt (script : Nat → YdlAttempt) (m b : Nat) (msg : String)
    (hm : 1 ≤ m) (h0 : script 0 = .downloadError msg) (hnt : tiktokTransientSig msg = false) :
    download_tiktok_run script m b
      = ⟨.rawError ("TikTok download error: " ++ msg), [], 1⟩ := by
  unfold download_tiktok_run
  obtain ⟨m', rfl⟩ : ∃ m', m = m' + 1 := ⟨m - 1, by omega⟩
  rw [List.range_eq_range', List.range'_succ]
  simp [tiktokGo, h0, hnt]

/-- Witness for C4's amended statement at a concrete non-transient failure. -/
theorem tiktok_nontransient_single_attempt_witness :
    download_tiktok_run (fun _ => .downloadError "HTTP Error 403: Forbidden") 3 2
      = ⟨.rawError ("TikTok download error: " ++ "HTTP Error 403: Forbidden"), [], 1⟩ :=
  tiktok_nontransient_single_attempt _ 3 2 _ (by omega) rfl (by decide)

/-- Counterexample to C4 as stated: with a non-transient failure the loop
propagates the raw tool error text (behind the `TikTok download error: `
marker), which is not the configured per-platform template
(`TIKTOK_ERROR_MESSAGE`, the `templateError` outcome raised only on transient
exhaustion at lines 318-326). -/
theorem tiktok_nontransient_raw_error_counterexample :
    download_tiktok_run (fun _ => .downloadError "HTTP Error 404: Not Found") 3 2
        = ⟨.rawError "TikTok download error: HTTP Error 404: Not Found", [], 1⟩
      ∧ TiktokOutcome.rawError "TikTok download error: HTTP Error 404: Not Found"
          ≠ TiktokOutcome.templateError :=
  ⟨by decide, by decide⟩

/-! ## The Twitter retry loop and the gallery-dl fallback -/

/-- C3: evaluation of `download_twitter_video`'s loop at a concrete run in
which yt-dlp raises `Unsupported URL` on each of the three attempts and
gallery-dl fails every time: the gallery-dl fallback is invoked on every
retry iteration — three times in one operation — before the configured
template error is raised after backoff sleeps of 1 and 2 units. -/
theorem twitter_gallery_fallback_every_iteration :
    download_twitter_run
        (fun _ => .downloadError "ERROR: Unsupported URL: https://x.com/u/status/1")
        (fun _ => false) 3 2
      = ⟨.templateError, [1, 2], 3⟩ := by
  decide

/-! ## Workspace cleanup in the download-and-send handler -/

/-- C1: the workspace survives a send failure. On the success path and on a
failing download the workspace is removed (the first by the handler's
success-path cleanup, the second by the downloader's own exception handler),
but when the download succeeds and the send raises, no step removes the
workspace: the cleanup of handlers.py lines 127-128 sits after the send in
the `try` body and the `except`/`finally` never remove it. -/
theorem workspace_leaked_on_send_failure :
    workspaceRemoved (_download_and_send_content_events true true) = true
    ∧ workspaceRemoved (_download_and_send_content_events false true) = true
    ∧ workspaceRemoved (_download_and_send_content_events false false) = true
    ∧ workspaceRemoved (_download_and_send_content_events true false) = false := by
  decide

/-! ## The report-capture flow -/

/-- C6: a user with the report flag active sends a free-text message; the
report is persisted, but the loop over
`self.download_limiter.ADMIN_USER_IDS` raises `AttributeError` (the class
assigns no such attribute), so no admin is messaged, the sender gets no
confirmation, and the `REPORT_STATES` flag stays set. -/
theorem report_message_raises_attribute_error :
    report_branch 7 "the bot crashed on my link" [42, 99]
      = ⟨[.savedReport 7 "the bot crashed on my link"], true, some "AttributeError"⟩ := by
  decide

/-! ## Short-form routing -/

/-- C10: for a message matching the YouTube pattern (and neither the Twitter
nor the TikTok pattern), the shorts path is taken exactly when `/shorts/`
occurs anywhere in the message text — regardless of the matched URL itself. -/
theorem shorts_routing_decided_by_message_text (text url : String)
    (hcmd : pyStartsWith text "/" = false) :
    message_route text none none (some url) = .youtubeShorts url
      ↔ strContains text "/shorts/" = true := by
  unfold message_route
  rw [hcmd]
  by_cases h : strContains text "/shorts/" = true
  · simp [h]
  · simp [h]

/-- Witness for C10: the matched URL is a long-form watch URL, yet the
message text contains `/shorts/` elsewhere, so the shorts path is taken. -/
theorem shorts_routing_decided_by_message_text_witness :
    message_route "try https://www.youtube.com/watch?v=dQw4w9WgXcQ from the /shorts/ tab"
        none none (some "https://www.youtube.com/watch?v=dQw4w9WgXcQ")
      = .youtubeShorts "https://www.youtube.com/watch?v=dQw4w9WgXcQ" :=
  (shorts_routing_decided_by_message_text _ _ (by decide)).mpr (by decide)

/-! ## Audio metadata derivation -/

/-- C7 (amended): the artist is the first non-empty of the explicit `artist`
field, the `creator` field and the uploader name, one conjunct per link of
that chain (an absent or empty field falls through to the next); the
title-split on the first ` - ` applies only when artist, creator and uploader
are all absent (the chain then yields the literal `Unknown Artist`); the
track is the explicit `track` field when non-empty, else the full title,
except that an applying split overrides both. -/
theorem metadata_priority_amended (info : TrackInfo) (title : String) :
    (∀ s, info.artist = some s → s ≠ "" → s ≠ "Unknown Artist" →
      _extract_metadata info title = (s, orStr info.track title))
    ∧ (∀ s, (info.artist = none ∨ info.artist = some "") →
        info.creator = some s → s ≠ "" → s ≠ "Unknown Artist" →
        _extract_metadata info title = (s, orStr info.track title))
    ∧ (∀ s, (info.artist = none ∨ info.artist = some "") →
        (info.creator = none ∨ info.creator = some "") →
        info.uploader = some s → s ≠ "" → s ≠ "Unknown Artist" →
        _extract_metadata info title = (s, orStr info.track title))
    ∧ ((info.artist = none ∨ info.artist = some "") →
        (info.creator = none ∨ info.creator = some "") →
        info.uploader = none →
        ((∀ pre post, splitFirstAux " - ".data title.data = some (pre, post) →
            _extract_metadata info title = (pyStrip ⟨pre⟩, pyStrip ⟨post⟩))
          ∧ (splitFirstAux " - ".data title.data = none →
            _extract_metadata info title = ("Unknown Artist", orStr info.track title)))) := by
  refine ⟨?_, ?_, ?_, ?_⟩
  · intro s ha hne hnua
    simp [_extract_metadata, ha, orStr, hne, hnua]
  · intro s ha hc hne hnua
    rcases ha with ha | ha <;>
      simp [_extract_metadata, ha, hc, orStr, hne, hnua]
  · intro s ha hc hup hne hnua
    rcases ha with ha | ha <;> rcases hc with hc | hc <;>
      simp [_extract_metadata, ha, hc, hup, orStr, hne, hnua]
  · intro ha hc hup
    constructor
    · intro pre post hsplit
      rcases ha with ha | ha <;> rcases hc with hc | hc <;>
        simp [_extract_metadata, ha, hc, hup, orStr, hsplit]
    · intro hsplit
      rcases ha with ha | ha <;> rcases hc with hc | hc <;>
        simp [_extract_metadata, ha, hc, hup, orStr, hsplit]

/-- Counterexample to C7 as stated: with no explicit artist metadata but an
uploader present and a title containing ` - `, the code keeps the uploader as
artist and the full title as track, instead of splitting the title. -/
theorem metadata_uploader_beats_title_split_counterexample :
    _extract_metadata ⟨none, none, some "ChannelName", none⟩ "Cool Artist - Great Song"
        = ("ChannelName", "Cool Artist - Great Song")
      ∧ (("ChannelName", "Cool Artist - Great Song") : String × String)
          ≠ ("Cool Artist", "Great Song") :=
  ⟨by decide, by decide⟩

/-! ## File resolution -/

theorem mediaFilterImages_subset (files : List (String × Nat)) (allow : Bool) :
    ∀ f ∈ mediaFilterImages files allow, f ∈ files := by
  intro f hf
  unfold mediaFilterImages at hf
  split at hf
  · exact hf
  · exact List.mem_of_mem_filter hf

theorem mediaPreferExt_subset (media : List (String × Nat)) (ext : Option String) :
    ∀ f ∈ mediaPreferExt media ext, f ∈ media := by
  intro f hf
  cases ext with
  | none => exact hf
  | some e =>
    have hmem : f ∈ (if (media.filter (fun f => pyEndsWith f.1 ("." ++ e))).isEmpty = true
        then media else media.filter (fun f => pyEndsWith f.1 ("." ++ e))) := hf
    by_cases hE : (media.filter (fun f => pyEndsWith f.1 ("." ++ e))).isEmpty = true
    · rw [if_pos hE] at hmem
      exact hmem
    · rw [if_neg hE] at hmem
      exact List.mem_of_mem_filter hmem

theorem mediaCandidates_subset (files : List (String × Nat)) (ext : Option String)
    (allow : Bool) : ∀ f ∈ mediaCandidates files ext allow, f ∈ files := by
  intro f hf
  exact mediaFilterImages_subset files allow f
    (mediaPreferExt_subset (mediaFilterImages files allow) ext f hf)

/-- C8: with `thumb.jpg` and `track.mp3` present, expected extension `mp3`
and images disallowed, resolution returns the joined path of `track.mp3`;
with only `thumb.jpg` and images disallowed it fails with the
no-media-file-found error; and any successful resolution returns the path of
a listed file of non-zero size (a zero-length candidate can never be
returned). -/
theorem find_file_resolution :
    _find_downloaded_file "/tmp/ws" [("thumb.jpg", 4096), ("track.mp3", 100000)]
        (some "mp3") false = .ok "/tmp/ws/track.mp3"
    ∧ _find_downloaded_file "/tmp/ws" [("thumb.jpg", 4096)] (some "mp3") false
        = .error "No media file found in download directory"
    ∧ ∀ (dir : String) (files : List (String × Nat)) (ext : Option String) (allow : Bool)
        (p : String), _find_downloaded_file dir files ext allow = .ok p →
        ∃ f, f ∈ files ∧ p = dir ++ "/" ++ f.1 ∧ f.2 ≠ 0 := by
  refine ⟨by rfl, by rfl, ?_⟩
  intro dir files ext allow p h
  unfold _find_downloaded_file at h
  split at h
  · exact absurd h (by simp)
  · split at h
    · exact absurd h (by simp)
    · rename_i f rest heq
      split at h
      · exact absurd h (by simp)
      · rename_i hf2
        refine ⟨f, ?_, ?_, hf2⟩
        · exact mediaCandidates_subset files ext allow f
            (heq ▸ List.mem_cons_self f rest)
        · simp only [Except.ok.injEq] at h
          exact h.symm

/-! ## The available-formats probe -/

theorem mem_insertDesc (n : Nat) (l : List Nat) (x : Nat) :
    x ∈ insertDesc n l ↔ x = n ∨ x ∈ l := by
  induction l with
  | nil => simp [insertDesc]
  | cons a tl ih =>
    show x ∈ (if n > a then n :: a :: tl else if n = a then a :: tl
      else a :: insertDesc n tl) ↔ x = n ∨ x ∈ a :: tl
    by_cases h1 : n > a
    · rw [if_pos h1]
      simp [List.mem_cons]
    · rw [if_neg h1]
      by_cases h2 : n = a
      · rw [if_pos h2]
        subst h2
        simp [List.mem_cons]
      · rw [if_neg h2]
        simp [List.mem_cons, ih]
        all_goals tauto

theorem sorted_insertDesc (n : Nat) (l : List Nat)
    (h : List.Sorted (fun a b => a > b) l) :
    List.Sorted (fun a b => a > b) (insertDesc n l) := by
  induction l with
  | nil => simp [insertDesc]
  | cons a tl ih =>
    rw [List.sorted_cons] at h
    obtain ⟨ha, htl⟩ := h
    show List.Sorted (fun a b => a > b) (if n > a then n :: a :: tl
      else if n = a then a :: tl else a :: insertDesc n tl)
    by_cases h1 : n > a
    · rw [if_pos h1]
      rw [List.sorted_cons]
      refine ⟨?_, ?_⟩
      · intro b hb
        rcases List.mem_cons.mp hb with rfl | hb'
        · exact h1
        · exact lt_trans (ha b hb') h1
      · rw [List.sorted_cons]
        exact ⟨ha, htl⟩
    · rw [if_neg h1]
      by_cases h2 : n = a
      · rw [if_pos h2]
        rw [List.sorted_cons]
        exact ⟨ha, htl⟩
      · rw [if_neg h2]
        rw [List.sorted_cons]
        refine ⟨?_, ih htl⟩
        intro b hb
        rcases (mem_insertDesc n tl b).mp hb with rfl | hb'
        · omega
        · exact ha b hb'

theorem insertDesc_ne_nil (n : Nat) (l : List Nat) : insertDesc n l ≠ [] := by
  cases l with
  | nil => simp [insertDesc]
  | cons a tl =>
    show (if n > a then n :: a :: tl else if n = a then a :: tl
      else a :: insertDesc n tl) ≠ []
    by_cases h1 : n > a
    · rw [if_pos h1]
      simp
    · rw [if_neg h1]
      by_cases h2 : n = a
      · rw [if_pos h2]
        simp
      · rw [if_neg h2]
        simp

theorem sortDescDedup_sorted (l : List Nat) :
    List.Sorted (fun a b => a > b) (sortDescDedup l) := by
  induction l with
  | nil => simp [sortDescDedup]
  | cons a tl ih =>
    have hstep : sortDescDedup (a :: tl) = insertDesc a (sortDescDedup tl) := rfl
    rw [hstep]
    exact sorted_insertDesc a _ ih

theorem mem_sortDescDedup (l : List Nat) (x : Nat) : x ∈ sortDescDedup l ↔ x ∈ l := by
  induction l with
  | nil => simp [sortDescDedup]
  | cons a tl ih =>
    have hstep : sortDescDedup (a :: tl) = insertDesc a (sortDescDedup tl) := rfl
    rw [hstep, mem_insertDesc, ih, List.mem_cons]

theorem sortDescDedup_ne_nil (l : List Nat) (h : l ≠ []) : sortDescDedup l ≠ [] := by
  cases l with
  | nil => exact absurd rfl h
  | cons a tl =>
    have hstep : sortDescDedup (a :: tl) = insertDesc a (sortDescDedup tl) := rfl
    rw [hstep]
    exact insertDesc_ne_nil _ _

/-- C9: the probe is total — its result is never empty; the result is
strictly descending (hence the heights are distinct and sorted descending);
when the extraction yields eligible heights the result consists of exactly
those heights; and on an extraction failure or when no eligible height is
discoverable it is the fixed fallback ladder. -/
theorem available_formats_never_fail (probe : Except Unit (List YdlFormat)) :
    get_available_formats probe ≠ []
    ∧ List.Sorted (fun a b => a > b) (get_available_formats probe)
    ∧ (∀ fs, probe = .ok fs → fs.filterMap eligibleHeight ≠ [] →
        ∀ x, x ∈ get_available_formats probe ↔ x ∈ fs.filterMap eligibleHeight)
    ∧ ((probe = .error () ∨ ∃ fs, probe = .ok fs ∧ fs.filterMap eligibleHeight = []) →
        get_available_formats probe = [1080, 720, 480, 360, 240]) := by
  cases probe with
  | error e =>
    cases e
    refine ⟨by simp [get_available_formats, VIDEO_FALLBACK_QUALITIES], ?_, ?_, ?_⟩
    · show List.Sorted (fun a b => a > b) VIDEO_FALLBACK_QUALITIES
      decide
    · intro fs heq
      exact absurd heq (by simp)
    · intro _
      rfl
  | ok fs =>
    by_cases h : fs.filterMap eligibleHeight = []
    · have hg : get_available_formats (.ok fs) = VIDEO_FALLBACK_QUALITIES := by
        simp [get_available_formats, h]
      refine ⟨?_, ?_, ?_, ?_⟩
      · rw [hg]
        simp [VIDEO_FALLBACK_QUALITIES]
      · rw [hg]
        decide
      · intro fs' heq hne
        injection heq with heq'
        subst heq'
        exact absurd h hne
      · intro _
        rw [hg]
        rfl
    · have hg : get_available_formats (.ok fs)
          = sortDescDedup (fs.filterMap eligibleHeight) := by
        simp [get_available_formats, List.isEmpty_iff, h]
      refine ⟨?_, ?_, ?_, ?_⟩
      · rw [hg]
        exact sortDescDedup_ne_nil _ h
      · rw [hg]
        exact sortDescDedup_sorted _
      · intro fs' heq _ x
        injection heq with heq'
        subst heq'
        rw [hg]
        exact mem_sortDescDedup _ x
      · intro hcase
        rcases hcase with heq | ⟨fs', heq, hempty⟩
        · exact absurd heq (by simp)
        · injection heq with heq'
          subst heq'
          exact absurd hempty h

/-- Witness for C2 at quota 1, unlimited set containing only user 99, and two
start attempts by user 5. -/
theorem limiter_per_user_quota_witness :
    (runLimiterOps (initLimiter 1 [99]) [.start 5 "a", .start 5 "b"]).get_active_count 5 ≤ 1
    ∧ ((runLimiterOps (initLimiter 1 [99]) [.start 5 "a", .start 5 "b"]).get_active_count 5 = 1 →
        (runLimiterOps (initLimiter 1 [99]) [.start 5 "a", .start 5 "b"]).start_download 5 "c"
          = (false, runLimiterOps (initLimiter 1 [99]) [.start 5 "a", .start 5 "b"]))
    ∧ (∀ (l : DownloadLimiter) (v : Int) (dd : String),
        v ∈ l.UNLIMITED_USER_IDS → (l.start_download v dd).1 = true) :=
  limiter_per_user_quota 1 [99] [.start 5 "a", .start 5 "b"] 5 "c" (by decide)

end Komuzik
